import Mathlib

/-!
Verification of the spam-filter app (src/app.py) against its specification.

The core of the program is:
  * `load_or_build_model` (app.py lines 33-59): resolves a classifier,
    loading `model.pkl` when present and deserializable, otherwise fitting
    a fallback TF-IDF + MLP pipeline on a fixed 8-example Vietnamese corpus;
  * the button handler (app.py lines 89-119): trims the concatenation of
    subject and body, short-circuits on empty input, otherwise scores the
    text with `model.predict_proba`, thresholds it, and prepends a history
    row to the session history list.

Machine floats of the Python code are embedded as rationals; the sklearn
predict stage, which is not part of this repository, is modelled from the
spec where a claim depends on it.
-/

namespace SpamFilter

/-- The fixed seed corpus of the fallback path (app.py lines 42-51):
eight hand-written Vietnamese examples. -/
def texts : List String :=
  [ "Nhận quà tặng khủng, bấm link để nhận thưởng ngay",
    "Chúc mừng trúng iPhone 15, xác nhận tại đây",
    "Vay tiền nhanh lãi suất 0%, click ngay",
    "Miễn phí 100% phí dịch vụ, cập nhật theo link",
    "Mời bạn tham dự phỏng vấn vào thứ Hai tuần tới",
    "Đính kèm báo cáo doanh số tháng 10",
    "Lịch họp dự án lúc 9h sáng mai",
    "Chúc mừng bạn đã trúng tuyển, vui lòng xác nhận thời gian" ]

/-- The labels of the seed corpus (app.py line 52): 1 = spam, 0 = ham. -/
def labels : List Nat := [1, 1, 1, 1, 0, 0, 0, 0]

/-- Hyperparameters of the TfidfVectorizer stage (app.py line 54). -/
structure TfidfConfig where
  analyzer : String
  ngram_min : Nat
  ngram_max : Nat
deriving DecidableEq

/-- Hyperparameters of the MLPClassifier stage (app.py lines 55-57). -/
structure MLPConfig where
  hidden_layer_sizes : List Nat
  activation : String
  learning_rate_init : ℚ
  alpha : ℚ
  max_iter : Nat
  random_state : Nat
deriving DecidableEq

/-- Config `TfidfVectorizer(analyzer="char", ngram_range=(3,5))` (app.py line 54). -/
def fallbackTfidf : TfidfConfig :=
  { analyzer := "char", ngram_min := 3, ngram_max := 5 }

/-- Config `MLPClassifier(hidden_layer_sizes=(128,64), activation="relu",
learning_rate_init=1e-3, alpha=1e-4, max_iter=80, random_state=42)`
(app.py lines 55-57). -/
def fallbackMLP : MLPConfig :=
  { hidden_layer_sizes := [128, 64], activation := "relu",
    learning_rate_init := 1/1000, alpha := 1/10000,
    max_iter := 80, random_state := 42 }

/-- A model deserialized from `model.pkl`; its contents are opaque to the
app, so it is embedded as an abstract tag. -/
structure TrainedArtifact where
  tag : Nat
deriving DecidableEq

/-- The state of the artifact file `model.pkl` as `load_or_build_model`
observes it: absent, present but failing to deserialize (`joblib.load`
raises, captured by the broad `except Exception`), or present and valid. -/
inductive ArtifactState where
  | absent
  | corrupt (err : String)
  | valid (m : TrainedArtifact)
deriving DecidableEq

/-- The pipeline a resolution returns: either the deserialized artifact or
the fallback pipeline fitted in-process on the seed corpus. -/
inductive ModelValue where
  | trained (m : TrainedArtifact)
  | fallback
deriving DecidableEq

/-- Function `load_or_build_model` (app.py lines 33-59), as a total function of the
observed artifact state.  `p.exists()` false skips the load; a successful
`joblib.load` returns the artifact with the trained label; an exception is
caught, a warning is shown, and control falls through to the fallback
branch, which fits the seed-corpus pipeline and returns it with the
temporary-model label.  The returned triple is (model, source label,
warnings emitted). -/
def load_or_build_model (fs : ArtifactState) :
    ModelValue × String × List String :=
  match fs with
  | .valid m => (.trained m, "model.pkl (đã huấn luyện)", [])
  | .corrupt e =>
      (.fallback, "model MLP tạm trong app",
        ["Không load được model.pkl (" ++ e ++ "). Sẽ dùng model tạm."])
  | .absent => (.fallback, "model MLP tạm trong app", [])

/-- Line 95 of app.py, `is_spam = proba >= threshold`. -/
def is_spam (proba threshold : ℚ) : Bool :=
  decide (proba ≥ threshold)

/-- Modelled from the spec: the fitted feed-forward network, whose
internals live in sklearn and not in this repository.  The spec only says
the predict stage produces "a single float derived from the network's
final-layer activation after normalization (e.g., a logistic/softmax-style
output restricted to two classes)", so the network is abstracted to its
final-layer activation (logit) on each input string. -/
structure FittedNet where
  logit : String → ℚ

/-- Modelled from the spec: a computable rational surrogate for the
logistic normalization applied to the final-layer activation.  Like the
logistic function it is strictly between 0 and 1 everywhere and increasing;
only that range matters for the claims. -/
def sigmoidQ (x : ℚ) : ℚ :=
  if 0 ≤ x then 1 - 1 / (x + 2) else 1 / (2 - x)

/-- Modelled from the spec: `score(text)` — the positive-class column of
`model.predict_proba([text])` (app.py line 94), the normalized output of
the fitted network on the input text. -/
def score (net : FittedNet) (text : String) : ℚ :=
  sigmoidQ (net.logit text)

/-- Modelled from the spec: the memoization contract of the
`@st.cache_resource` decorator on `load_or_build_model` (app.py line 32) —
"this resolution should happen at most once per process lifetime; repeated
calls must return the same in-memory instance".  The cache holds the
resolved value once computed. -/
structure CacheState (α : Type) where
  cached : Option α
deriving DecidableEq

/-- Modelled from the spec: one call through the cache.  Returns the
value handed to the caller, the cache afterwards, and how many times the
underlying computation ran during this call (0 or 1). -/
def cachedCall {α : Type} (compute : Unit → α) (s : CacheState α) :
    α × CacheState α × Nat :=
  match s.cached with
  | some v => (v, s, 0)
  | none => (compute (), ⟨some (compute ())⟩, 1)

/-- A call to the cached `load_or_build_model` for a fixed artifact
state. -/
def cachedLoad (fs : ArtifactState)
    (s : CacheState (ModelValue × String × List String)) :
    (ModelValue × String × List String) ×
      CacheState (ModelValue × String × List String) × Nat :=
  cachedCall (fun _ => load_or_build_model fs) s

/-- One row of the session history (app.py lines 111-116). -/
structure HistEntry where
  time : String
  verdictLabel : String
  proba : ℚ
  subject : String
  excerpt : String
deriving DecidableEq

/-- Python `round(proba, 3)` (app.py line 113).  Python rounds floats half to
even; on the non-tie inputs that matter here this agrees with rounding to
the nearest multiple of 1/1000. -/
def round3 (x : ℚ) : ℚ :=
  (round (x * 1000) : ℚ) / 1000

/-- The history row built on the non-empty branch (app.py lines 111-116):
current time, verdict label, probability rounded to 3 places, first 60
characters of the subject, first 80 characters of the body with newlines
replaced by spaces. -/
def mkRow (now : String) (spam : Bool) (proba : ℚ)
    (subject body : String) : HistEntry :=
  { time := now,
    verdictLabel := if spam then "SPAM" else "Not spam",
    proba := round3 proba,
    subject := subject.take 60,
    excerpt := (body.take 80).replace "\n" " " }

/-- The observable outcome of one press of the "Kiểm tra Spam" button
(app.py lines 89-119). -/
structure CheckResult where
  scored : Bool
  proba : Option ℚ
  verdict : Option Bool
  info : Option String
  hist : List HistEntry
deriving DecidableEq

/-- Python's whitespace predicate for `str.strip()`, restricted to the
ASCII whitespace characters (Python additionally strips some Unicode space
characters, which none of the claims touch). -/
def pyIsSpace (c : Char) : Bool :=
  c = ' ' || c = '\t' || c = '\n' || c = '\r' || c = '\x0b' || c = '\x0c'

/-- Python's `str.strip()`: remove leading and trailing whitespace. -/
def strip (s : String) : String :=
  String.mk
    (((s.data.dropWhile pyIsSpace).reverse.dropWhile pyIsSpace).reverse)

/-- The button handler (app.py lines 89-119) as a function of the fitted
model's scoring function, the threshold, the current time, the two text
fields, and the session history.  `text = (subject + " " + body).strip()`;
if it is empty an informational message is shown and nothing else happens;
otherwise the text is scored, thresholded, rendered, and a new row is
inserted at position 0 of the history (`st.session_state.hist.insert(0,
new_row)`, the history being created empty first if absent). -/
def runCheck (scoreFn : String → ℚ) (threshold : ℚ) (now : String)
    (subject body : String) (hist : List HistEntry) : CheckResult :=
  let text := strip (subject ++ " " ++ body)
  if text = "" then
    { scored := false, proba := none, verdict := none,
      info := some "Vui lòng nhập ít nhất tiêu đề hoặc nội dung.",
      hist := hist }
  else
    let proba := scoreFn text
    let spam := is_spam proba threshold
    { scored := true, proba := some proba, verdict := some spam,
      info := none,
      hist := mkRow now spam proba subject body :: hist }

end SpamFilter

namespace SpamFilter

/-- C2: the verdict is `true` iff the probability is at least the
threshold; for fixed `p` it is `false` exactly when `t > p` and `true`
exactly when `t ≤ p`.  The derivation is a total Lean function of its two
arguments, so it is pure and has no failure modes. -/
theorem is_spam_iff_ge (p t : ℚ) :
    (is_spam p t = true ↔ t ≤ p) ∧ (is_spam p t = false ↔ p < t) := by
  constructor
  · simp [is_spam, ge_iff_le]
  · simp [is_spam, ge_iff_le, not_le]

/-- C3: `load_or_build_model` returns the fallback pipeline with the
temporary-model label both when the artifact is absent and when it is
present but deserialization fails with any error, and that label is
distinct from the trained-artifact label.  Totality of the Lean function
reflects that no exception escapes to the caller. -/
theorem load_or_build_model_fallback :
    (load_or_build_model .absent).1 = .fallback ∧
    (load_or_build_model .absent).2.1 = "model MLP tạm trong app" ∧
    (∀ e : String, (load_or_build_model (.corrupt e)).1 = .fallback) ∧
    (∀ e : String,
      (load_or_build_model (.corrupt e)).2.1 = "model MLP tạm trong app") ∧
    "model MLP tạm trong app" ≠ "model.pkl (đã huấn luyện)" := by
  refine ⟨rfl, rfl, fun e => rfl, fun e => rfl, ?_⟩
  decide

/-- C1: the score of any input string under any fitted network — the
positive-class column of `predict_proba` (app.py line 94) — lies in
[0, 1]. -/
theorem score_in_unit_interval (net : FittedNet) (t : String) :
    0 ≤ score net t ∧ score net t ≤ 1 := by
  unfold score sigmoidQ
  by_cases h : 0 ≤ net.logit t
  · rw [if_pos h]
    have h2 : (0 : ℚ) < net.logit t + 2 := by linarith
    have hpos : 0 < 1 / (net.logit t + 2) := by positivity
    have hle : 1 / (net.logit t + 2) ≤ 1 / 2 := by
      apply one_div_le_one_div_of_le <;> linarith
    constructor <;> linarith
  · rw [if_neg h]
    have h2 : (0 : ℚ) < 2 - net.logit t := by
      have := not_le.mp h
      linarith
    have hpos : 0 < 1 / (2 - net.logit t) := by positivity
    have hle : 1 / (2 - net.logit t) ≤ 1 := by
      rw [div_le_one h2]
      have := not_le.mp h
      linarith
    constructor <;> linarith

/-- C4: scoring is deterministic — two invocations of `score` on the same
fitted pipeline with the same input string return the same probability —
and the only randomness in the program, the fallback training, is fixed by
`random_state=42` (app.py line 57). -/
theorem score_deterministic :
    (∀ (net : FittedNet) (t₁ t₂ : String),
        t₁ = t₂ → score net t₁ = score net t₂) ∧
    fallbackMLP.random_state = 42 :=
  ⟨fun _ _ _ h => by rw [h], rfl⟩

/-- Witness for C4 at a concrete network and input string. -/
theorem score_deterministic_witness :
    score ⟨fun _ => 0⟩ "abc" = score ⟨fun _ => 0⟩ "abc" :=
  score_deterministic.1 ⟨fun _ => 0⟩ "abc" "abc" rfl

/-- C5: the fallback corpus has exactly 8 examples, labelled 4 spam and
4 ham; the pipeline is a character n-gram vectorizer with n-gram lengths
3 to 5 followed by a feed-forward classifier with hidden layers of sizes
128 and 64, ReLU activation, and a positive L2 penalty `alpha`; and the
fallback is returned exactly when no persisted model is loaded (absent or
corrupt artifact), never when the artifact loads. -/
theorem fallback_corpus_and_pipeline :
    texts.length = 8 ∧ labels.length = 8 ∧
    labels.count 1 = 4 ∧ labels.count 0 = 4 ∧
    fallbackTfidf.analyzer = "char" ∧
    fallbackTfidf.ngram_min = 3 ∧ fallbackTfidf.ngram_max = 5 ∧
    fallbackMLP.hidden_layer_sizes = [128, 64] ∧
    fallbackMLP.activation = "relu" ∧
    0 < fallbackMLP.alpha ∧
    (load_or_build_model .absent).1 = .fallback ∧
    (∀ e : String, (load_or_build_model (.corrupt e)).1 = .fallback) ∧
    (∀ m : TrainedArtifact,
      (load_or_build_model (.valid m)).1 = .trained m) := by
  refine ⟨rfl, rfl, by decide, by decide, rfl, rfl, rfl, rfl, rfl, ?_,
    rfl, fun e => rfl, fun m => rfl⟩
  norm_num [fallbackMLP]

/-- C6: resolution through the cache is memoized.  The first call from an
empty cache runs `load_or_build_model` exactly once and stores its result;
every call on a filled cache returns the stored instance unchanged with
zero executions; in particular the second call returns exactly the first
call's in-memory result. -/
theorem cachedLoad_memoized (fs : ArtifactState) :
    (cachedLoad fs ⟨none⟩).1 = load_or_build_model fs ∧
    (cachedLoad fs ⟨none⟩).2.1 = ⟨some (load_or_build_model fs)⟩ ∧
    (cachedLoad fs ⟨none⟩).2.2 = 1 ∧
    (∀ v, cachedLoad fs ⟨some v⟩ = (v, ⟨some v⟩, 0)) ∧
    (cachedLoad fs (cachedLoad fs ⟨none⟩).2.1).1 =
      (cachedLoad fs ⟨none⟩).1 :=
  ⟨rfl, rfl, rfl, fun _ => rfl, rfl⟩

/-- C8: when the trimmed concatenation of subject and body is empty, the
handler short-circuits: scoring is not invoked, no probability or verdict
is produced, the informational message is shown, and the history is
returned unchanged. -/
theorem runCheck_empty_short_circuits (scoreFn : String → ℚ) (threshold : ℚ)
    (now subject body : String) (hist : List HistEntry)
    (h : strip (subject ++ " " ++ body) = "") :
    runCheck scoreFn threshold now subject body hist =
      { scored := false, proba := none, verdict := none,
        info := some "Vui lòng nhập ít nhất tiêu đề hoặc nội dung.",
        hist := hist } := by
  simp [runCheck, h]

/-- Witness for C8 at empty subject and body. -/
theorem runCheck_empty_short_circuits_witness :
    strip ("" ++ " " ++ "") = "" ∧
    runCheck (fun _ => 0) (1/2) "09:00:00" "" "" [] =
      { scored := false, proba := none, verdict := none,
        info := some "Vui lòng nhập ít nhất tiêu đề hoặc nội dung.",
        hist := [] } :=
  ⟨by decide,
   runCheck_empty_short_circuits (fun _ => 0) (1/2) "09:00:00" "" "" []
     (by decide)⟩

/-- C9: on the non-empty branch the new history is exactly the new row
consed onto the old history — the entry is inserted at position 0, every
previous entry is preserved unchanged behind it, and the list grows only
at the front (append-only, newest-first). -/
theorem runCheck_inserts_newest_first (scoreFn : String → ℚ)
    (threshold : ℚ) (now subject body : String) (hist : List HistEntry)
    (h : strip (subject ++ " " ++ body) ≠ "") :
    (runCheck scoreFn threshold now subject body hist).hist =
      mkRow now
        (is_spam (scoreFn (strip (subject ++ " " ++ body))) threshold)
        (scoreFn (strip (subject ++ " " ++ body))) subject body :: hist := by
  simp [runCheck, h]

/-- Witness for C9 at a concrete non-empty input. -/
theorem runCheck_inserts_newest_first_witness :
    strip ("a" ++ " " ++ "") ≠ "" ∧
    (runCheck (fun _ => 1) (1/2) "09:00:00" "a" "" []).hist =
      [mkRow "09:00:00" (is_spam 1 (1/2)) 1 "a" ""] :=
  ⟨by decide,
   runCheck_inserts_newest_first (fun _ => 1) (1/2) "09:00:00" "a" "" []
     (by decide)⟩

/-- C10: atomicity of the empty-input branch — if the trimmed
concatenation is empty, the history is left unchanged and no probability
or verdict is computed; the history grows by exactly one entry only on the
non-empty branch. -/
theorem runCheck_empty_branch_frame (scoreFn : String → ℚ) (threshold : ℚ)
    (now subject body : String) (hist : List HistEntry) :
    (strip (subject ++ " " ++ body) = "" →
      (runCheck scoreFn threshold now subject body hist).hist = hist ∧
      (runCheck scoreFn threshold now subject body hist).proba = none ∧
      (runCheck scoreFn threshold now subject body hist).verdict = none) ∧
    (strip (subject ++ " " ++ body) ≠ "" →
      (runCheck scoreFn threshold now subject body hist).hist.length =
        hist.length + 1) := by
  constructor
  · intro h
    simp [runCheck, h]
  · intro h
    simp [runCheck, h]

/-- Witness for C10: the empty branch at empty inputs leaves an arbitrary
concrete history untouched, and the non-empty branch at a concrete input
grows it by one. -/
theorem runCheck_empty_branch_frame_witness :
    ((runCheck (fun _ => 0) (1/2) "09:00:00" "" ""
        [mkRow "08:00:00" true 1 "s" "b"]).hist =
      [mkRow "08:00:00" true 1 "s" "b"] ∧
     (runCheck (fun _ => 0) (1/2) "09:00:00" "" ""
        [mkRow "08:00:00" true 1 "s" "b"]).proba = none ∧
     (runCheck (fun _ => 0) (1/2) "09:00:00" "" ""
        [mkRow "08:00:00" true 1 "s" "b"]).verdict = none) ∧
    (runCheck (fun _ => 0) (1/2) "09:00:00" "a" ""
        [mkRow "08:00:00" true 1 "s" "b"]).hist.length =
      [mkRow "08:00:00" true 1 "s" "b"].length + 1 :=
  ⟨(runCheck_empty_branch_frame (fun _ => 0) (1/2) "09:00:00" "" ""
      [mkRow "08:00:00" true 1 "s" "b"]).1 (by decide),
   (runCheck_empty_branch_frame (fun _ => 0) (1/2) "09:00:00" "a" ""
      [mkRow "08:00:00" true 1 "s" "b"]).2 (by decide)⟩

end SpamFilter
